import Mathlib

/-!
Shallow embedding of the reconciliation core of `aws_doorman`, a tool that
keeps an AWS managed prefix list in sync with the caller's external IP.

Sources embedded here:
- `src/aws/mod.rs`    : `AWSClient::{get_managed_prefix_list, get_managed_prefix_entries,
                        modify_managed_prefix_list, get_managed_ips, update_ips}`, `PrefixList`
- `src/aws/helpers.rs`: `get_only_item`
- `src/aws/error.rs`  : `HttpResponseDescription`, `SGAuthorizeIngressError`,
                        `AWSClientError`, `CardinalityError`, the `From` conversions
- `src/main.rs`       : the poll-loop body (`work`)

Rust machine types: strings are modelled as Lean `String` (byte-level ASCII
case-folding coincides with char-level folding, see `eqIgnoreAsciiCase`),
`u16`/byte values as `Nat`, `i64` versions as `Int`, `HashSet<&str>` as
`Finset String`, `Vec<T>` as `List T`, `Option<T>` as `Option T`.
A Rust panic (`unwrap` on `None` or on a failed parse) is modelled as `none`
in an `Option`-valued result.
-/

/-- ASCII lower-casing of one character, as Rust's `u8::to_ascii_lowercase`
applied byte-wise (only `A`..`Z` change; all other code points are fixed). -/
def asciiLowerChar (c : Char) : Char :=
  if 65 ≤ c.toNat ∧ c.toNat ≤ 90 then Char.ofNat (c.toNat + 32) else c

/-- Rust `str::eq_ignore_ascii_case`: equal length and byte-wise equality after
ASCII lower-casing.  Over valid Unicode strings this is equivalent to comparing
the character sequences after `asciiLowerChar` (non-ASCII characters are fixed
by ASCII folding, and ASCII characters occupy exactly one byte). -/
def eqIgnoreAsciiCase (a b : String) : Bool :=
  a.data.map asciiLowerChar == b.data.map asciiLowerChar

/-- `rusoto_ec2::PrefixListEntry`: both fields are optional on the wire. -/
structure PrefixListEntry where
  cidr : Option String
  description : Option String
deriving DecidableEq

/-- `rusoto_ec2::ManagedPrefixList`, restricted to the fields the embedded
code reads (`prefix_list_id`, `prefix_list_name`, `version`, `address_family`,
`max_entries`). -/
structure ManagedPrefixList where
  prefixListId : Option String
  prefixListName : Option String
  version : Option Int
  addressFamily : Option String
  maxEntries : Option Int
deriving DecidableEq

/-- `PrefixList` from `src/aws/mod.rs`: the local cache of a managed prefix
list and its entries. -/
structure PrefixList where
  managedPrefixList : ManagedPrefixList
  managedPrefixEntries : List PrefixListEntry
deriving DecidableEq

/-- `AWSError` as constructed in `src/aws/mod.rs` (the enum declaration itself
lives in an iteration of `aws/error.rs` not present in the sources; its two
constructors and their `String` payloads are read off the construction sites
`AWSError::CardinalityError(..)` and `AWSError::NothingToDo(..)` in
`src/aws/mod.rs`, and the spec's §7 error taxonomy).  `unknown` stands for any
remote error converted by the `From` impls along a `?`. -/
inductive AWSError where
  | cardinalityError (msg : String)
  | nothingToDo (msg : String)
  | unknown (msg : String)
deriving DecidableEq

/-- Result of `describe_managed_prefix_lists`, restricted to the fields read
by `get_managed_prefix_list`. -/
structure DescribeManagedPrefixListsResult where
  nextToken : Option String
  prefixLists : Option (List ManagedPrefixList)
deriving DecidableEq

/-- `AWSClient::get_managed_prefix_list` (src/aws/mod.rs:22-55), applied to an
already-obtained describe result: reject any response with a pagination token,
then demand exactly one prefix list. -/
def getManagedPrefixList (prefixListId : String)
    (result : DescribeManagedPrefixListsResult) : Except AWSError ManagedPrefixList :=
  if result.nextToken.isSome then
    .error (.cardinalityError "Got too many prefix lists from AWS.")
  else
    match result.prefixLists with
    | none => .error (.cardinalityError ("Prefix list `" ++ prefixListId ++ "` not found."))
    | some mplVec =>
      match mplVec with
      | [] => .error (.cardinalityError ("Prefix list `" ++ prefixListId ++ "` not found."))
      | [mpl] => .ok mpl
      | _ => .error (.cardinalityError "Got too many prefix lists from AWS.")

/-- `CardinalityError` from `src/aws/error.rs`. -/
inductive CardinalityError where
  | none
  | tooMany
deriving DecidableEq

/-- `get_only_item` from `src/aws/helpers.rs`: `Some(v)` of length 1 yields the
sole element, longer vectors yield `TooMany`, everything else yields `None`. -/
def getOnlyItem {α : Type} (itemVec : Option (List α)) : Except CardinalityError α :=
  match itemVec with
  | some [x] => .ok x
  | some (_ :: _ :: _) => .error .tooMany
  | _ => .error .none

/-- One response of `get_managed_prefix_list_entries`, restricted to the
fields read by the pagination loop. -/
structure GetEntriesResult where
  entries : Option (List PrefixListEntry)
  nextToken : Option String
deriving DecidableEq

/-- The pagination loop of `AWSClient::get_managed_prefix_entries`
(src/aws/mod.rs:58-87).  The remote is modelled as the sequence of responses
it returns to the successive calls; the loop consumes one response per call,
appends its entries (`result.entries.unwrap()`: a `none` there is the panic,
modelled as the `none` result) and stops as soon as a response carries no
`next_token`.  The returned `Nat` counts the calls issued; an empty response
list models a remote that never answers, which the loop cannot observe. -/
def fetchEntries : List GetEntriesResult → Option (List PrefixListEntry × Nat)
  | [] => none
  | r :: rest =>
    match r.entries with
    | none => none
    | some es =>
      match r.nextToken with
      | none => some (es, 1)
      | some _ =>
        match fetchEntries rest with
        | none => none
        | some (more, n) => some (es ++ more, n + 1)

/-- `AWSClient::get_managed_ips` (src/aws/mod.rs:143-156): the set of CIDRs of
entries whose description ASCII-case-insensitively equals the client's
configured `entry_description`.  Entries without a description, or without a
CIDR, contribute nothing (`filter_map` + `and_then`). -/
def getManagedIps (entryDescription : String) (pl : PrefixList) : Finset String :=
  (pl.managedPrefixEntries.filterMap (fun entry =>
    entry.description.bind (fun desc =>
      if eqIgnoreAsciiCase desc entryDescription then entry.cidr else none))).toFinset

/-- The `ips_to_add` set computed by `AWSClient::update_ips`
(src/aws/mod.rs:167): desired minus managed. -/
def ipsToAdd (entryDescription : String) (pl : PrefixList) (ips : Finset String) : Finset String :=
  ips \ getManagedIps entryDescription pl

/-- The `ips_to_remove` set computed by `AWSClient::update_ips`
(src/aws/mod.rs:168): managed minus desired. -/
def ipsToRemove (entryDescription : String) (pl : PrefixList) (ips : Finset String) : Finset String :=
  getManagedIps entryDescription pl \ ips

/-- `rusoto_ec2::AddPrefixListEntry` as built in `modify_managed_prefix_list`. -/
structure AddPrefixListEntry where
  cidr : String
  description : Option String
deriving DecidableEq

/-- `rusoto_ec2::RemovePrefixListEntry` as built in `modify_managed_prefix_list`. -/
structure RemovePrefixListEntry where
  cidr : String
deriving DecidableEq

/-- `rusoto_ec2::ModifyManagedPrefixListRequest`, restricted to the fields the
client fills in.  The Rust code collects the entries from `HashSet` iteration
into a `Vec` in unspecified order, so the entry collections are modelled as
finite sets. -/
structure ModifyManagedPrefixListRequest where
  prefixListId : String
  currentVersion : Option Int
  addEntries : Option (Finset AddPrefixListEntry)
  removeEntries : Option (Finset RemovePrefixListEntry)
deriving DecidableEq

/-- Result of the remote `modify_managed_prefix_list` call. -/
structure ModifyManagedPrefixListResult where
  prefixList : Option ManagedPrefixList
deriving DecidableEq

/-- The request built by `AWSClient::modify_managed_prefix_list`
(src/aws/mod.rs:95-116): the *client's configured* `prefix_list_id`, the
snapshot's `version` as `current_version`, and the add/remove CIDR sets mapped
to entries (additions are tagged with the client's `entry_description`). -/
def modifyRequestFor (prefixListId entryDescription : String) (pl : PrefixList)
    (addIps removeIps : Option (Finset String)) : ModifyManagedPrefixListRequest :=
  { prefixListId := prefixListId
    currentVersion := pl.managedPrefixList.version
    addEntries := addIps.map (fun ipVec =>
      ipVec.image (fun cidr => { cidr := cidr, description := some entryDescription }))
    removeEntries := removeIps.map (fun ipVec =>
      ipVec.image (fun cidr => { cidr := cidr })) }

/-- `AWSClient::modify_managed_prefix_list` (src/aws/mod.rs:89-124), with the
remote modelled as a function from the request to its response.  The returned
pair is (outcome, calls issued); the outcome is `none` exactly when the code
panics (`result.prefix_list.unwrap()` on a response without a prefix list). -/
def modifyManagedPrefixList
    (remote : ModifyManagedPrefixListRequest → Except AWSError ModifyManagedPrefixListResult)
    (prefixListId entryDescription : String) (pl : PrefixList)
    (addIps removeIps : Option (Finset String)) :
    Option (Except AWSError ManagedPrefixList) × List ModifyManagedPrefixListRequest :=
  let request := modifyRequestFor prefixListId entryDescription pl addIps removeIps
  match remote request with
  | .error e => (some (.error e), [request])
  | .ok result =>
    match result.prefixList with
    | none => (none, [request])
    | some mpl => (some (.ok mpl), [request])

/-- `AWSClient::update_ips` (src/aws/mod.rs:161-176): compute the diff against
the managed (owned) entries; if both sides are empty return the `NothingToDo`
outcome without touching the remote, otherwise issue exactly one modify call
with the computed sets. -/
def updateIps
    (remote : ModifyManagedPrefixListRequest → Except AWSError ModifyManagedPrefixListResult)
    (prefixListId entryDescription : String) (pl : PrefixList) (ips : Finset String) :
    Option (Except AWSError ManagedPrefixList) × List ModifyManagedPrefixListRequest :=
  let managedIps := getManagedIps entryDescription pl
  let toAdd := ips \ managedIps
  let toRemove := managedIps \ ips
  if toAdd = ∅ ∧ toRemove = ∅ then
    (some (.error (.nothingToDo "No IPs to add or remove.")), [])
  else
    modifyManagedPrefixList remote prefixListId entryDescription pl (some toAdd) (some toRemove)

/-- `rusoto_core::request::BufferedHttpResponse`, restricted to the fields the
conversions read: the HTTP status and the raw body bytes. -/
structure BufferedHttpResponse where
  status : Nat
  body : List Nat
deriving DecidableEq

/-- `HttpResponseError` from `src/aws/error.rs`: one parsed vendor error. -/
structure HttpResponseError where
  code : Option String
  message : Option String
deriving DecidableEq

/-- `HttpResponseDescription` from `src/aws/error.rs`: the HTTP status, the
parsed vendor errors in document order, and the raw source response. -/
structure HttpResponseDescription where
  status : Nat
  errors : List HttpResponseError
  source : BufferedHttpResponse
deriving DecidableEq

/-- `SGAuthorizeIngressError` from `src/aws/error.rs` (the `unknown` variant
carries the unconverted `RusotoError`, summarised here by a message). -/
inductive SGAuthorizeIngressError where
  | duplicateRule (err : HttpResponseDescription)
  | malformedRule (err : HttpResponseDescription)
  | ruleLimitExceeded (err : HttpResponseDescription)
  | unknownHttpError (err : HttpResponseDescription)
  | unknown (msg : String)
deriving DecidableEq

/-- `From<HttpResponseDescription> for SGAuthorizeIngressError`
(src/aws/error.rs:87-110): non-400 statuses are unknown; on 400 the *first*
parsed vendor error's code is matched against the three known code strings. -/
def sgAuthorizeIngressErrorFromHttp (err : HttpResponseDescription) : SGAuthorizeIngressError :=
  if err.status ≠ 400 then
    .unknownHttpError err
  else
    match err.errors.head? with
    | none => .unknownHttpError err
    | some errorDetail =>
      if errorDetail.code = some "InvalidPermission.Duplicate" then .duplicateRule err
      else if errorDetail.code = some "InvalidPermission.Malformed" then .malformedRule err
      else if errorDetail.code = some "RulesPerSecurityGroupLimitExceeded" then
        .ruleLimitExceeded err
      else .unknownHttpError err

/-- `AWSClientError` from `src/aws/error.rs`, at `E = SGAuthorizeIngressError`
(the `unknown` variant boxes errors that are neither `Unknown` HTTP responses
nor service errors, e.g. credential failures). -/
inductive AWSClientError where
  | service (err : SGAuthorizeIngressError)
  | permissionDenied (err : HttpResponseDescription)
  | unknown (msg : String)
deriving DecidableEq

/-- The composed classification of a `RusotoError::Unknown(http_response)`
through `From<RusotoError<E>> for AWSClientError<F>` (src/aws/error.rs:177-189)
followed by `From<RusotoError<..>> for SGAuthorizeIngressError`
(src/aws/error.rs:76-85), stated on the parsed response description: a 403
becomes `PermissionDenied`; every other status is wrapped as a service error
via `sgAuthorizeIngressErrorFromHttp`. -/
def classifyUnknownHttp (err : HttpResponseDescription) : AWSClientError :=
  if err.status = 403 then
    .permissionDenied err
  else
    .service (sgAuthorizeIngressErrorFromHttp err)

/-- Continuation-byte test for UTF-8 (`0x80..0xBF`). -/
def utf8Cont (b : Nat) : Bool :=
  0x80 ≤ b ∧ b < 0xC0

/-- UTF-8 validation-and-decoding of a byte sequence, as performed by Rust's
`String::from_utf8`: rejects stray continuation bytes, overlong encodings,
surrogate code points, code points above `0x10FFFF` and truncated sequences.
Returns the decoded character sequence, or `none` when the bytes are not valid
UTF-8 (where `String::from_utf8(..).unwrap()` panics). -/
def utf8Decode : List Nat → Option (List Char)
  | [] => some []
  | b :: rest =>
    if b < 0x80 then
      (utf8Decode rest).map (Char.ofNat b :: ·)
    else if b < 0xC2 then
      none
    else if b < 0xE0 then
      match rest with
      | b1 :: rest1 =>
        if utf8Cont b1 then
          (utf8Decode rest1).map (Char.ofNat ((b - 0xC0) * 64 + (b1 - 0x80)) :: ·)
        else none
      | [] => none
    else if b < 0xF0 then
      match rest with
      | b1 :: b2 :: rest2 =>
        let cp := (b - 0xE0) * 4096 + (b1 - 0x80) * 64 + (b2 - 0x80)
        if utf8Cont b1 ∧ utf8Cont b2 ∧ 0x800 ≤ cp ∧ ¬(0xD800 ≤ cp ∧ cp ≤ 0xDFFF) then
          (utf8Decode rest2).map (Char.ofNat cp :: ·)
        else none
      | _ => none
    else if b < 0xF5 then
      match rest with
      | b1 :: b2 :: b3 :: rest3 =>
        let cp := (b - 0xF0) * 262144 + (b1 - 0x80) * 4096 + (b2 - 0x80) * 64 + (b3 - 0x80)
        if utf8Cont b1 ∧ utf8Cont b2 ∧ utf8Cont b3 ∧ 0x10000 ≤ cp ∧ cp ≤ 0x10FFFF then
          (utf8Decode rest3).map (Char.ofNat cp :: ·)
        else none
      | _ => none
    else
      none

/-- A parsed XML node, at the granularity the conversion code inspects through
`roxmltree`: element nodes with a tag and ordered children, and text nodes. -/
inductive XmlNode where
  | element (tag : String) (children : List XmlNode)
  | text (content : String)

/-- `roxmltree`'s `tag_name()` at the granularity used here: text nodes have
an empty tag name, so they never match a named-element search. -/
def xmlTagName : XmlNode → String
  | .element tag _ => tag
  | .text _ => ""

/-- `roxmltree`'s `children()`: the direct children of an element node. -/
def xmlChildren : XmlNode → List XmlNode
  | .element _ children => children
  | .text _ => []

/-- `roxmltree`'s `text()`: the content of a text node, or an element's first
child when that child is a text node. -/
def xmlNodeText : XmlNode → Option String
  | .element _ (.text content :: _) => some content
  | .element _ _ => none
  | .text content => some content

mutual
/-- `roxmltree`'s `descendants()`: the node itself followed by the descendants
of its children, in document order. -/
def xmlDescendants : XmlNode → List XmlNode
  | .element tag children => .element tag children :: xmlDescendantsList children
  | .text content => [.text content]

/-- Descendants of a forest, in document order. -/
def xmlDescendantsList : List XmlNode → List XmlNode
  | [] => []
  | n :: ns => xmlDescendants n ++ xmlDescendantsList ns
end

/-- The per-child extraction loop of `From<BufferedHttpResponse> for
HttpResponseDescription` (src/aws/error.rs:244-259): for each child of the
`Errors` node, find a `Code` and a `Message` descendant (each
`.find(..).unwrap()` panics — modelled as `none` — when absent) and take their
text. -/
def collectHttpResponseErrors : List XmlNode → Option (List HttpResponseError)
  | [] => some []
  | child :: rest =>
    match (xmlDescendants child).find? (fun n => xmlTagName n == "Code") with
    | none => none
    | some codeNode =>
      match (xmlDescendants child).find? (fun n => xmlTagName n == "Message") with
      | none => none
      | some messageNode =>
        (collectHttpResponseErrors rest).map
          (fun hres => { code := xmlNodeText codeNode, message := xmlNodeText messageNode } :: hres)

/-- `From<BufferedHttpResponse> for HttpResponseDescription`
(src/aws/error.rs:235-266, identically src/aws/ec2.rs:165-196).  The external
XML parser (`roxmltree::Document::parse`, a fallible parse) is a parameter;
every `unwrap()` of the source — on UTF-8 validation, on the XML parse, on
locating the `Errors` node, and on each `Code`/`Message` lookup — is modelled
as a `none` result, i.e. a panic. -/
def httpResponseDescriptionFromBuffered (xmlParse : List Char → Option XmlNode)
    (hrd : BufferedHttpResponse) : Option HttpResponseDescription :=
  match utf8Decode hrd.body with
  | none => none
  | some doc =>
    match xmlParse doc with
    | none => none
    | some root =>
      match (xmlDescendants root).find? (fun n => xmlTagName n == "Errors") with
      | none => none
      | some errorsNode =>
        match collectHttpResponseErrors (xmlChildren errorsNode) with
        | none => none
        | some hreVec => some { status := hrd.status, errors := hreVec, source := hrd }

/-- An `ipnet::IpNet` value, at the granularity the poll loop uses: a network
address (the 32-bit IPv4 address as a `Nat`) and a prefix length.  The loop
only ever builds `/32` networks from the detected IPv4 address and compares
networks for equality. -/
structure IpNetM where
  addr : Nat
  len : Nat
deriving DecidableEq

/-- Rendering of an `IpNetM` used in the loop's log/notification strings (the
model renders the address numerically; only equality of networks matters to
the embedded control flow). -/
def ipNetToString (n : IpNetM) : String :=
  toString n.addr ++ "/" ++ toString n.len

/-- The poll loop's mutable state (src/main.rs:52-54): the last observed
external CIDR and the most recently fetched prefix list. -/
structure LoopState where
  currentCidr : Option IpNetM
  currentPrefixList : ManagedPrefixList
deriving DecidableEq

/-- A remote call that mutates or reads AWS state, as issued by one tick of
the poll loop (desktop notifications are not remote AWS calls). -/
inductive RemoteCall where
  | modifyEntries (pl : ManagedPrefixList) (add : List IpNetM) (remove : List IpNetM)
  | waitForState (prefixListId : String)
deriving DecidableEq

/-- How one tick of the loop body ends: fall through to the next tick
(`continue` or the end of the `Ok` arm), abort the whole `work` future via a
`?` propagation, or panic on an `unwrap`. -/
inductive TickOutcome where
  | continued
  | aborted
  | panicked
deriving DecidableEq

/-- One tick of the poll loop body (src/main.rs:58-95).  The collaborators
that live outside the embedded sources — `AWSClient::modify_entries`,
`AWSClient::wait_for_state` and `notify` — are parameters; the consensus
lookup's outcome (`Err`, `Ok` with no IPv4, or `Ok` with an IPv4 address) is
the tick's input.  Returns the state after the tick, the remote AWS calls
issued during it, in order, and how the tick ended. -/
def tick
    (modifyEntries : ManagedPrefixList → List IpNetM → List IpNetM →
      Except String ManagedPrefixList)
    (waitForState : String → Except String ManagedPrefixList)
    (notify : String → String → Bool → Except String Unit)
    (st : LoopState) (consensus : Except String (Option Nat)) :
    LoopState × List RemoteCall × TickOutcome :=
  match consensus with
  | .error _ =>
    match notify "Failed to retrieve external IP." "" true with
    | .error _ => (st, [], .aborted)
    | .ok _ => (st, [], .continued)
  | .ok none =>
    match notify "Failed to retrieve external IP." "No IP found..." true with
    | .error _ => (st, [], .aborted)
    | .ok _ => (st, [], .continued)
  | .ok (some ip) =>
    let newCidr : Option IpNetM := some { addr := ip, len := 32 }
    if newCidr = st.currentCidr then
      (st, [], .continued)
    else
      let add := newCidr.toList
      let remove := st.currentCidr.toList
      match modifyEntries st.currentPrefixList add remove with
      | .error _ =>
        ({ st with currentCidr := newCidr },
         [.modifyEntries st.currentPrefixList add remove], .continued)
      | .ok mpl =>
        match mpl.prefixListId with
        | none =>
          (st, [.modifyEntries st.currentPrefixList add remove], .panicked)
        | some plid =>
          match waitForState plid with
          | .error _ =>
            (st, [.modifyEntries st.currentPrefixList add remove, .waitForState plid],
             .aborted)
          | .ok newPrefixList =>
            match notify "Updated prefix list"
                ("New IP: " ++ ipNetToString { addr := ip, len := 32 }) false with
            | .error _ =>
              (st, [.modifyEntries st.currentPrefixList add remove, .waitForState plid],
               .aborted)
            | .ok _ =>
              ({ currentCidr := newCidr, currentPrefixList := newPrefixList },
               [.modifyEntries st.currentPrefixList add remove, .waitForState plid],
               .continued)

deriving instance DecidableEq for Except

/-- The claim's characterisation of an *owned* CIDR: some entry of the
snapshot carries this CIDR and a description that ASCII-case-insensitively
equals the configured ownership description. -/
def OwnedCidr (entryDescription : String) (pl : PrefixList) (c : String) : Prop :=
  ∃ entry ∈ pl.managedPrefixEntries,
    (∃ desc, entry.description = some desc ∧ eqIgnoreAsciiCase desc entryDescription = true) ∧
    entry.cidr = some c

/-- The classification table exactly as the C3 claim words it: 403 is
`PermissionDenied` regardless of body; 400 is decided by the first parsed
vendor error code (`Duplicate`/`Malformed`/`LimitExceeded`, anything else or
no parsed error is the unknown variant); any other status is the unknown
variant. -/
def c3SpecClassify (err : HttpResponseDescription) : AWSClientError :=
  if err.status = 403 then
    .permissionDenied err
  else if err.status = 400 then
    match err.errors.head? with
    | none => .service (.unknownHttpError err)
    | some errorDetail =>
      if errorDetail.code = some "InvalidPermission.Duplicate" then
        .service (.duplicateRule err)
      else if errorDetail.code = some "InvalidPermission.Malformed" then
        .service (.malformedRule err)
      else if errorDetail.code = some "RulesPerSecurityGroupLimitExceeded" then
        .service (.ruleLimitExceeded err)
      else .service (.unknownHttpError err)
  else .service (.unknownHttpError err)

/-- The variant (constructor) of a classification outcome, used to state that
the chosen variant depends only on the status and the first parsed error. -/
def awsClientErrorTag : AWSClientError → Nat
  | .service (.duplicateRule _) => 0
  | .service (.malformedRule _) => 1
  | .service (.ruleLimitExceeded _) => 2
  | .service (.unknownHttpError _) => 3
  | .service (.unknown _) => 4
  | .permissionDenied _ => 5
  | .unknown _ => 6

/-- Membership in `getManagedIps` is exactly the claim's ownership
characterisation. -/
theorem mem_getManagedIps (entryDescription : String) (pl : PrefixList) (c : String) :
    c ∈ getManagedIps entryDescription pl ↔ OwnedCidr entryDescription pl c := by
  simp only [getManagedIps, OwnedCidr, List.mem_toFinset, List.mem_filterMap,
    Option.bind_eq_some]
  constructor
  · rintro ⟨e, he, d, hd, hif⟩
    by_cases h : eqIgnoreAsciiCase d entryDescription = true
    · exact ⟨e, he, ⟨d, hd, h⟩, by simpa [h] using hif⟩
    · simp [h] at hif
  · rintro ⟨e, he, ⟨d, hd, h⟩, hc⟩
    exact ⟨e, he, d, hd, by simp [h, hc]⟩

/-- C1: the diff computed by `update_ips` satisfies
`to_add = desired − owned` and `to_remove = owned − desired`, where a CIDR is
owned exactly when some entry carries it together with a description that
ASCII-case-insensitively equals the configured ownership description; and an
entry whose description does not match never influences either side of the
diff, whatever its CIDR. -/
theorem c1_diff_ownership (entryDescription : String) (pl : PrefixList) (ips : Finset String) :
    (∀ c, c ∈ ipsToAdd entryDescription pl ips ↔
        c ∈ ips ∧ ¬ OwnedCidr entryDescription pl c) ∧
    (∀ c, c ∈ ipsToRemove entryDescription pl ips ↔
        OwnedCidr entryDescription pl c ∧ c ∉ ips) ∧
    (∀ e : PrefixListEntry,
        (∀ desc, e.description = some desc →
          eqIgnoreAsciiCase desc entryDescription = false) →
        ipsToAdd entryDescription
            { pl with managedPrefixEntries := pl.managedPrefixEntries ++ [e] } ips =
          ipsToAdd entryDescription pl ips ∧
        ipsToRemove entryDescription
            { pl with managedPrefixEntries := pl.managedPrefixEntries ++ [e] } ips =
          ipsToRemove entryDescription pl ips) := by
  refine ⟨?_, ?_, ?_⟩
  · intro c
    simp [ipsToAdd, mem_getManagedIps]
  · intro c
    rw [ipsToRemove, Finset.mem_sdiff, mem_getManagedIps]
  · intro e he
    have hsame : getManagedIps entryDescription
        { pl with managedPrefixEntries := pl.managedPrefixEntries ++ [e] } =
        getManagedIps entryDescription pl := by
      simp only [getManagedIps, List.filterMap_append]
      have hnil : (([e] : List PrefixListEntry).filterMap (fun entry =>
          entry.description.bind (fun desc =>
            if eqIgnoreAsciiCase desc entryDescription then entry.cidr else none))) = [] := by
        cases hd : e.description with
        | none => simp [List.filterMap, hd]
        | some d => simp [List.filterMap, hd, he d hd]
      rw [hnil, List.append_nil]
    constructor <;> simp [ipsToAdd, ipsToRemove, hsame]

/-- Witness for C1: a snapshot with one owned entry (`1.2.3.4/32`, tagged
`TAG` against the configured description `tag`) and one foreign entry; adding
a foreign entry carrying the desired CIDR `5.6.7.8/32` changes neither side of
the diff. -/
theorem c1_diff_ownership_witness :
    (∀ desc,
        ({ cidr := some "5.6.7.8/32", description := some "other" } :
          PrefixListEntry).description = some desc →
        eqIgnoreAsciiCase desc "tag" = false) ∧
    (ipsToAdd "tag"
        { managedPrefixList :=
            { prefixListId := some "pl-1", prefixListName := some "doorman",
              version := some 7, addressFamily := some "IPv4", maxEntries := some 10 }
          managedPrefixEntries :=
            [ { cidr := some "1.2.3.4/32", description := some "TAG" } ] ++
            [ { cidr := some "5.6.7.8/32", description := some "other" } ] }
        {"5.6.7.8/32"} =
      ipsToAdd "tag"
        { managedPrefixList :=
            { prefixListId := some "pl-1", prefixListName := some "doorman",
              version := some 7, addressFamily := some "IPv4", maxEntries := some 10 }
          managedPrefixEntries :=
            [ { cidr := some "1.2.3.4/32", description := some "TAG" } ] }
        {"5.6.7.8/32"} ∧
      ipsToRemove "tag"
        { managedPrefixList :=
            { prefixListId := some "pl-1", prefixListName := some "doorman",
              version := some 7, addressFamily := some "IPv4", maxEntries := some 10 }
          managedPrefixEntries :=
            [ { cidr := some "1.2.3.4/32", description := some "TAG" } ] ++
            [ { cidr := some "5.6.7.8/32", description := some "other" } ] }
        {"5.6.7.8/32"} =
      ipsToRemove "tag"
        { managedPrefixList :=
            { prefixListId := some "pl-1", prefixListName := some "doorman",
              version := some 7, addressFamily := some "IPv4", maxEntries := some 10 }
          managedPrefixEntries :=
            [ { cidr := some "1.2.3.4/32", description := some "TAG" } ] }
        {"5.6.7.8/32"}) :=
  ⟨fun desc hd => by cases hd; decide,
   (c1_diff_ownership "tag"
      { managedPrefixList :=
          { prefixListId := some "pl-1", prefixListName := some "doorman",
            version := some 7, addressFamily := some "IPv4", maxEntries := some 10 }
        managedPrefixEntries :=
          [ { cidr := some "1.2.3.4/32", description := some "TAG" } ] }
      {"5.6.7.8/32"}).2.2
    { cidr := some "5.6.7.8/32", description := some "other" }
    (fun desc hd => by cases hd; decide)⟩

/-- C2: for every sequence of pages in which every page but the last carries a
next-page token, the last carries none, and every page carries its entries,
the pagination loop returns the concatenation of all pages' entries in arrival
order and issues exactly one `list_entries` call per page. -/
theorem c2_pagination_complete (pages : List GetEntriesResult)
    (hne : pages ≠ [])
    (hmid : ∀ p ∈ pages.dropLast, p.nextToken.isSome = true)
    (hlast : ∀ p, pages.getLast? = some p → p.nextToken = none)
    (hent : ∀ p ∈ pages, p.entries.isSome = true) :
    fetchEntries pages =
      some ((pages.map (fun p => p.entries.getD [])).flatten, pages.length) := by
  induction pages with
  | nil => exact absurd rfl hne
  | cons p rest ih =>
    obtain ⟨es, hes⟩ := Option.isSome_iff_exists.mp (hent p (List.mem_cons_self p rest))
    cases rest with
    | nil =>
      have hnt : p.nextToken = none := hlast p rfl
      simp [fetchEntries, hes, hnt]
    | cons q rest' =>
      have hpt : p.nextToken.isSome = true := by
        apply hmid
        simp [List.dropLast]
      obtain ⟨t, ht⟩ := Option.isSome_iff_exists.mp hpt
      have ihres := ih (by simp)
        (fun x hx => hmid x (by simp [List.dropLast] at hx ⊢; exact Or.inr hx))
        (fun x hx => hlast x (by simpa using hx))
        (fun x hx => hent x (List.mem_cons_of_mem p hx))
      rw [fetchEntries]
      simp only [hes, ht]
      rw [ihres]
      simp [hes]

/-- Witness for C2: three synthetic pages, the first two with tokens, the last
without; the loop returns all entries in order over exactly three calls. -/
theorem c2_pagination_complete_witness :
    fetchEntries
      [ { entries := some [{ cidr := some "1.1.1.1/32", description := some "tag" }],
          nextToken := some "t1" },
        { entries := some [], nextToken := some "t2" },
        { entries := some [{ cidr := some "2.2.2.2/32", description := some "other" }],
          nextToken := none } ] =
      some ([{ cidr := some "1.1.1.1/32", description := some "tag" },
             { cidr := some "2.2.2.2/32", description := some "other" }], 3) :=
  c2_pagination_complete _ (by decide) (by decide) (by decide) (by decide)

/-- C3: classification of an `Unknown` HTTP remote failure agrees with the
claim's table — 403 is `PermissionDenied` regardless of the parsed body, 400
is decided solely by the first parsed vendor error code (`Duplicate`,
`Malformed`, `LimitExceeded`, otherwise the unknown variant), any other status
is the unknown variant — and the chosen variant depends only on the status and
the first parsed `(code, message)` pair, never on later stacked errors. -/
theorem c3_error_classification :
    (∀ err : HttpResponseDescription, classifyUnknownHttp err = c3SpecClassify err) ∧
    (∀ (status : Nat) (first : HttpResponseError) (rest : List HttpResponseError)
        (src src' : BufferedHttpResponse),
      awsClientErrorTag (classifyUnknownHttp
          { status := status, errors := first :: rest, source := src }) =
        awsClientErrorTag (classifyUnknownHttp
          { status := status, errors := [first], source := src' })) := by
  have key : ∀ err : HttpResponseDescription, classifyUnknownHttp err = c3SpecClassify err := by
    intro err
    unfold classifyUnknownHttp c3SpecClassify sgAuthorizeIngressErrorFromHttp
    by_cases h403 : err.status = 403
    · simp [h403]
    · by_cases h400 : err.status = 400
      · simp only [h403, h400, ite_false, ite_true, ne_eq, not_true_eq_false, if_false,
          reduceIte]
        cases hh : err.errors.head? with
        | none => simp
        | some d => simp [apply_ite AWSClientError.service]
      · simp [h403, h400]
  refine ⟨key, ?_⟩
  intro status first rest src src'
  rw [key, key]
  unfold c3SpecClassify
  by_cases h403 : status = 403
  · simp [h403, awsClientErrorTag]
  · by_cases h400 : status = 400
    · simp only [h403, h400, ite_false, ite_true, if_false, reduceIte, List.head?]
      by_cases h1 : first.code = some "InvalidPermission.Duplicate"
      · simp [h1, awsClientErrorTag]
      · by_cases h2 : first.code = some "InvalidPermission.Malformed"
        · simp [h1, h2, awsClientErrorTag]
        · by_cases h3 : first.code = some "RulesPerSecurityGroupLimitExceeded"
          · simp [h1, h2, h3, awsClientErrorTag]
          · simp [h1, h2, h3, awsClientErrorTag]
    · simp [h403, h400, awsClientErrorTag]

/-- C4: the conversion from a buffered HTTP response to a parsed error
description panics on malformed bodies instead of degrading to the unknown
classification: on the body consisting of the single byte `0xFF` (not valid
UTF-8), `String::from_utf8(..).unwrap()` fails for every HTTP status and
every behaviour of the external XML parser — the conversion has no non-panic
outcome there, so classification never gets to return the `Unknown` variant. -/
theorem c4_malformed_body_panics (xmlParse : List Char → Option XmlNode) (status : Nat) :
    httpResponseDescriptionFromBuffered xmlParse { status := status, body := [255] } = none := by
  have hdecode : utf8Decode [255] = none := by decide
  simp [httpResponseDescriptionFromBuffered, hdecode]

/-- C5 counterexample: `update_ips` does not call modify with the *snapshot's*
id — the request carries the client's configured `prefix_list_id`.  With a
client configured for `pl-client` and a snapshot whose own id is
`pl-snapshot`, the single issued request names `pl-client`. -/
theorem c5_counterexample :
    (updateIps
        (fun _ => .ok
          ⟨some ⟨some "pl-snapshot", some "doorman", some 8, some "IPv4", some 10⟩⟩)
        "pl-client" "tag"
        ⟨⟨some "pl-snapshot", some "doorman", some 7, some "IPv4", some 10⟩,
          [⟨some "1.2.3.4/32", some "tag"⟩]⟩
        {"5.6.7.8/32"}).2.map (fun r => r.prefixListId) = ["pl-client"] ∧
    (⟨some "pl-snapshot", some "doorman", some 7, some "IPv4", some 10⟩ :
      ManagedPrefixList).prefixListId = some "pl-snapshot" ∧
    ("pl-client" : String) ≠ "pl-snapshot" := by
  refine ⟨rfl, rfl, by decide⟩

/-- C5 (amended): when the computed diff is empty `update_ips` returns the
`NothingToDo` outcome through the error channel and issues no remote call;
when it is non-empty it issues exactly one modify call carrying the *client's
configured* prefix-list id, the snapshot's version, and the computed add and
remove sets, and it returns the snapshot the remote returns (propagating a
remote error unchanged). -/
theorem c5_update_ips_control_flow
    (remote : ModifyManagedPrefixListRequest → Except AWSError ModifyManagedPrefixListResult)
    (prefixListId entryDescription : String) (pl : PrefixList) (ips : Finset String) :
    (ipsToAdd entryDescription pl ips = ∅ ∧ ipsToRemove entryDescription pl ips = ∅ →
      updateIps remote prefixListId entryDescription pl ips =
        (some (.error (.nothingToDo "No IPs to add or remove.")), [])) ∧
    (¬ (ipsToAdd entryDescription pl ips = ∅ ∧ ipsToRemove entryDescription pl ips = ∅) →
      (updateIps remote prefixListId entryDescription pl ips).2 =
        [modifyRequestFor prefixListId entryDescription pl
          (some (ipsToAdd entryDescription pl ips))
          (some (ipsToRemove entryDescription pl ips))] ∧
      (modifyRequestFor prefixListId entryDescription pl
          (some (ipsToAdd entryDescription pl ips))
          (some (ipsToRemove entryDescription pl ips))).prefixListId = prefixListId ∧
      (modifyRequestFor prefixListId entryDescription pl
          (some (ipsToAdd entryDescription pl ips))
          (some (ipsToRemove entryDescription pl ips))).currentVersion =
        pl.managedPrefixList.version ∧
      (∀ e, remote (modifyRequestFor prefixListId entryDescription pl
          (some (ipsToAdd entryDescription pl ips))
          (some (ipsToRemove entryDescription pl ips))) = .error e →
        (updateIps remote prefixListId entryDescription pl ips).1 = some (.error e)) ∧
      (∀ result mpl, remote (modifyRequestFor prefixListId entryDescription pl
          (some (ipsToAdd entryDescription pl ips))
          (some (ipsToRemove entryDescription pl ips))) = .ok result →
        result.prefixList = some mpl →
        (updateIps remote prefixListId entryDescription pl ips).1 = some (.ok mpl))) := by
  constructor
  · intro h
    rw [ipsToAdd] at h
    rw [ipsToRemove] at h
    simp [updateIps, h.1, h.2]
  · intro h
    rw [ipsToAdd, ipsToRemove] at h
    have hbranch : updateIps remote prefixListId entryDescription pl ips =
        modifyManagedPrefixList remote prefixListId entryDescription pl
          (some (ips \ getManagedIps entryDescription pl))
          (some (getManagedIps entryDescription pl \ ips)) := by
      simp only [updateIps]
      rw [if_neg h]
    refine ⟨?_, rfl, rfl, ?_, ?_⟩
    · rw [hbranch]
      unfold modifyManagedPrefixList
      rcases hr : remote (modifyRequestFor prefixListId entryDescription pl
          (some (ips \ getManagedIps entryDescription pl))
          (some (getManagedIps entryDescription pl \ ips))) with e | result
      · simp [hr, ipsToAdd, ipsToRemove]
      · cases hp : result.prefixList with
        | none => simp [hr, hp, ipsToAdd, ipsToRemove]
        | some mpl => simp [hr, hp, ipsToAdd, ipsToRemove]
    · intro e he
      rw [hbranch]
      unfold modifyManagedPrefixList
      rw [ipsToAdd, ipsToRemove] at he
      simp [he]
    · intro result mpl hr hp
      rw [hbranch]
      unfold modifyManagedPrefixList
      rw [ipsToAdd, ipsToRemove] at hr
      simp [hr, hp]

/-- Witness for C5: a snapshot owning `1.2.3.4/32` and a desired set
`{5.6.7.8/32}` produce a non-empty diff; the remote's answer is returned. -/
theorem c5_update_ips_control_flow_witness :
    (updateIps
        (fun _ => .ok ⟨some ⟨some "pl-a", some "doorman", some 8, some "IPv4", some 10⟩⟩)
        "pl-a" "tag"
        ⟨⟨some "pl-a", some "doorman", some 7, some "IPv4", some 10⟩,
          [⟨some "1.2.3.4/32", some "tag"⟩]⟩
        {"5.6.7.8/32"}).1 =
      some (.ok ⟨some "pl-a", some "doorman", some 8, some "IPv4", some 10⟩) :=
  ((c5_update_ips_control_flow
      (fun _ => .ok ⟨some ⟨some "pl-a", some "doorman", some 8, some "IPv4", some 10⟩⟩)
      "pl-a" "tag"
      ⟨⟨some "pl-a", some "doorman", some 7, some "IPv4", some 10⟩,
        [⟨some "1.2.3.4/32", some "tag"⟩]⟩
      {"5.6.7.8/32"}).2 (by decide)).2.2.2.2 _ _ rfl rfl

/-- C6 counterexample: a describe result whose body holds *exactly one*
prefix list but which also carries a pagination token is rejected as "too
many" instead of being returned successfully. -/
theorem c6_counterexample :
    (some [(⟨some "pl-1", some "doorman", some 7, some "IPv4", some 10⟩ :
        ManagedPrefixList)]).map List.length = some 1 ∧
    getManagedPrefixList "pl-1"
        ⟨some "token", some [⟨some "pl-1", some "doorman", some 7, some "IPv4", some 10⟩]⟩ =
      .error (.cardinalityError "Got too many prefix lists from AWS.") ∧
    getManagedPrefixList "pl-1"
        ⟨some "token", some [⟨some "pl-1", some "doorman", some 7, some "IPv4", some 10⟩]⟩ ≠
      .ok ⟨some "pl-1", some "doorman", some 7, some "IPv4", some 10⟩ := by
  refine ⟨rfl, rfl, by decide⟩

/-- C6 (amended): on a describe result *without a pagination token* the fetch
path enforces the singleton invariant — a missing or empty list yields the
"not found" cardinality error, exactly one list is returned successfully, two
or more yield the "too many" cardinality error — while any result carrying a
pagination token yields the "too many" cardinality error regardless of how
many lists it holds; and `get_only_item` returns `Ok` of the sole element iff
the optional vector has length one. -/
theorem c6_singleton_enforcement (prefixListId : String)
    (result : DescribeManagedPrefixListsResult) :
    (result.nextToken = none →
      ((result.prefixLists = none ∨ result.prefixLists = some []) →
        getManagedPrefixList prefixListId result =
          .error (.cardinalityError ("Prefix list `" ++ prefixListId ++ "` not found."))) ∧
      (∀ mpl, result.prefixLists = some [mpl] →
        getManagedPrefixList prefixListId result = .ok mpl) ∧
      (∀ l, result.prefixLists = some l → 2 ≤ l.length →
        getManagedPrefixList prefixListId result =
          .error (.cardinalityError "Got too many prefix lists from AWS."))) ∧
    (∀ t, result.nextToken = some t →
      getManagedPrefixList prefixListId result =
        .error (.cardinalityError "Got too many prefix lists from AWS.")) ∧
    (∀ (α : Type) (itemVec : Option (List α)),
      ((∃ x, getOnlyItem itemVec = .ok x) ↔ ∃ l, itemVec = some l ∧ l.length = 1) ∧
      (∀ l x, itemVec = some l → (getOnlyItem itemVec = .ok x ↔ l = [x]))) := by
  refine ⟨?_, ?_, ?_⟩
  · intro htok
    refine ⟨?_, ?_, ?_⟩
    · rintro (h | h) <;> simp [getManagedPrefixList, htok, h]
    · intro mpl h
      simp [getManagedPrefixList, htok, h]
    · intro l h hlen
      match l, hlen with
      | x :: y :: ls, _ => simp [getManagedPrefixList, htok, h]
  · intro t h
    simp [getManagedPrefixList, h]
  · intro α itemVec
    constructor
    · constructor
      · rintro ⟨x, hx⟩
        match itemVec, hx with
        | some [y], _ => exact ⟨[y], rfl, rfl⟩
      · rintro ⟨l, hl, hlen⟩
        match l, hlen with
        | [y], _ => exact ⟨y, by simp [hl, getOnlyItem]⟩
    · intro l x hl
      subst hl
      match l with
      | [] => simp [getOnlyItem]
      | [y] => simp [getOnlyItem]
      | y :: z :: ls => simp [getOnlyItem]

/-- Witness for C6: a token-free result with one list is returned, an empty
one errors, and `get_only_item` accepts exactly the singleton vector. -/
theorem c6_singleton_enforcement_witness :
    getManagedPrefixList "pl-1"
        ⟨none, some [⟨some "pl-1", some "doorman", some 7, some "IPv4", some 10⟩]⟩ =
      .ok ⟨some "pl-1", some "doorman", some 7, some "IPv4", some 10⟩ ∧
    getManagedPrefixList "pl-1" ⟨none, some []⟩ =
      .error (.cardinalityError "Prefix list `pl-1` not found.") ∧
    (getOnlyItem (some [(3 : Nat)]) = .ok 3 ↔ [(3 : Nat)] = [3]) :=
  ⟨((c6_singleton_enforcement "pl-1"
        ⟨none, some [⟨some "pl-1", some "doorman", some 7, some "IPv4", some 10⟩]⟩).1
      rfl).2.1 _ rfl,
   ((c6_singleton_enforcement "pl-1" ⟨none, some []⟩).1 rfl).1 (Or.inr rfl),
   ((c6_singleton_enforcement "pl-1" ⟨none, none⟩).2.2 Nat (some [3])).2 [3] 3 rfl⟩

/-- C7 counterexample: calling `update_ips` twice in succession with the same
*stale* snapshot (owning `1.2.3.4/32`) and the same desired set
`{5.6.7.8/32}` does not yield `NothingToDo` the second time — being the same
deterministic computation as the first call, the second call issues a modify
request again and returns the remote's answer. -/
theorem c7_counterexample :
    updateIps
        (fun _ => .ok ⟨some ⟨some "pl-a", some "doorman", some 8, some "IPv4", some 10⟩⟩)
        "pl-a" "tag"
        ⟨⟨some "pl-a", some "doorman", some 7, some "IPv4", some 10⟩,
          [⟨some "1.2.3.4/32", some "tag"⟩]⟩
        {"5.6.7.8/32"} =
      (some (.ok ⟨some "pl-a", some "doorman", some 8, some "IPv4", some 10⟩),
       [modifyRequestFor "pl-a" "tag"
          ⟨⟨some "pl-a", some "doorman", some 7, some "IPv4", some 10⟩,
            [⟨some "1.2.3.4/32", some "tag"⟩]⟩
          (some {"5.6.7.8/32"}) (some {"1.2.3.4/32"})]) ∧
    (some (Except.ok
        (⟨some "pl-a", some "doorman", some 8, some "IPv4", some 10⟩ : ManagedPrefixList)) :
      Option (Except AWSError ManagedPrefixList)) ≠
      some (.error (.nothingToDo "No IPs to add or remove.")) := by
  refine ⟨by decide, by decide⟩

/-- C7 (amended): the second reconciliation yields `NothingToDo` and issues no
remote mutation exactly when the snapshot it is given reflects the applied
state — whenever the snapshot's owned CIDR set equals the desired set (as
after a successful first reconcile and a refresh), `update_ips` returns the
`NothingToDo` outcome and issues no modify call; with the unchanged stale
snapshot the second call merely repeats the first call's computation. -/
theorem c7_noop_idempotence
    (remote : ModifyManagedPrefixListRequest → Except AWSError ModifyManagedPrefixListResult)
    (prefixListId entryDescription : String) (pl : PrefixList) (ips : Finset String)
    (h : getManagedIps entryDescription pl = ips) :
    updateIps remote prefixListId entryDescription pl ips =
      (some (.error (.nothingToDo "No IPs to add or remove.")), []) := by
  simp [updateIps, h]

/-- Witness for C7: a snapshot owning exactly the desired `5.6.7.8/32` makes
`update_ips` return `NothingToDo` without calling the remote. -/
theorem c7_noop_idempotence_witness :
    getManagedIps "tag"
        ⟨⟨some "pl-a", some "doorman", some 8, some "IPv4", some 10⟩,
          [⟨some "5.6.7.8/32", some "tag"⟩]⟩ = {"5.6.7.8/32"} ∧
    updateIps
        (fun _ => .ok ⟨some ⟨some "pl-a", some "doorman", some 9, some "IPv4", some 10⟩⟩)
        "pl-a" "tag"
        ⟨⟨some "pl-a", some "doorman", some 8, some "IPv4", some 10⟩,
          [⟨some "5.6.7.8/32", some "tag"⟩]⟩
        {"5.6.7.8/32"} =
      (some (.error (.nothingToDo "No IPs to add or remove.")), []) :=
  ⟨by decide,
   c7_noop_idempotence
     (fun _ => .ok ⟨some ⟨some "pl-a", some "doorman", some 9, some "IPv4", some 10⟩⟩)
     "pl-a" "tag"
     ⟨⟨some "pl-a", some "doorman", some 8, some "IPv4", some 10⟩,
       [⟨some "5.6.7.8/32", some "tag"⟩]⟩
     {"5.6.7.8/32"} (by decide)⟩

/-- C8: on a tick whose newly detected external CIDR equals the last observed
one, the loop body skips reconciliation entirely — the state is unchanged, no
remote AWS call of any kind is issued, and the loop continues — whatever the
remote collaborators would do. -/
theorem c8_stability_skip
    (modifyEntries : ManagedPrefixList → List IpNetM → List IpNetM →
      Except String ManagedPrefixList)
    (waitForState : String → Except String ManagedPrefixList)
    (notify : String → String → Bool → Except String Unit)
    (st : LoopState) (ip : Nat)
    (h : st.currentCidr = some { addr := ip, len := 32 }) :
    tick modifyEntries waitForState notify st (.ok (some ip)) = (st, [], .continued) := by
  simp [tick, h]

/-- Witness for C8: a state already holding `10.0.0.1` (as a `/32`) skips the
tick that detects the same address, with remote collaborators that would
mutate if called. -/
theorem c8_stability_skip_witness :
    tick (fun pl _ _ => .ok pl) (fun _ => .error "boom") (fun _ _ _ => .ok ())
        ⟨some ⟨167772161, 32⟩, ⟨some "pl-a", some "doorman", some 7, some "IPv4", some 10⟩⟩
        (.ok (some 167772161)) =
      (⟨some ⟨167772161, 32⟩, ⟨some "pl-a", some "doorman", some 7, some "IPv4", some 10⟩⟩,
       [], .continued) :=
  c8_stability_skip (fun pl _ _ => .ok pl) (fun _ => .error "boom") (fun _ _ _ => .ok ())
    ⟨some ⟨167772161, 32⟩, ⟨some "pl-a", some "doorman", some 7, some "IPv4", some 10⟩⟩
    167772161 rfl

/-- C9: a describe result carrying a pagination token is rejected with the
"too many" cardinality error, even when its body holds exactly one prefix
list. -/
theorem c9_next_token_cardinality (prefixListId : String)
    (result : DescribeManagedPrefixListsResult)
    (h : result.nextToken.isSome = true) :
    getManagedPrefixList prefixListId result =
      .error (.cardinalityError "Got too many prefix lists from AWS.") := by
  simp [getManagedPrefixList, h]

/-- Witness for C9: a token-carrying result with exactly one prefix list is
still rejected. -/
theorem c9_next_token_cardinality_witness :
    getManagedPrefixList "pl-1"
        ⟨some "token", some [⟨some "pl-1", some "doorman", some 7, some "IPv4", some 10⟩]⟩ =
      .error (.cardinalityError "Got too many prefix lists from AWS.") :=
  c9_next_token_cardinality "pl-1"
    ⟨some "token", some [⟨some "pl-1", some "doorman", some 7, some "IPv4", some 10⟩]⟩ rfl

/-- C10: on a tick where the detected CIDR differs from the last observed one
and the modify call fails, the loop logs the failure, keeps the old prefix
list, and still records the new CIDR as current; consequently a later tick
observing the same external address skips reconciliation instead of retrying
the failed update. -/
theorem c10_failed_update_records_cidr
    (modifyEntries : ManagedPrefixList → List IpNetM → List IpNetM →
      Except String ManagedPrefixList)
    (waitForState : String → Except String ManagedPrefixList)
    (notify : String → String → Bool → Except String Unit)
    (st : LoopState) (ip : Nat) (e : String)
    (hne : st.currentCidr ≠ some { addr := ip, len := 32 })
    (hfail : modifyEntries st.currentPrefixList [{ addr := ip, len := 32 }]
      st.currentCidr.toList = .error e) :
    tick modifyEntries waitForState notify st (.ok (some ip)) =
      ({ st with currentCidr := some { addr := ip, len := 32 } },
       [.modifyEntries st.currentPrefixList [{ addr := ip, len := 32 }]
          st.currentCidr.toList],
       .continued) ∧
    tick modifyEntries waitForState notify
        { st with currentCidr := some { addr := ip, len := 32 } } (.ok (some ip)) =
      ({ st with currentCidr := some { addr := ip, len := 32 } }, [], .continued) := by
  have hcond : ¬ (some ({ addr := ip, len := 32 } : IpNetM) = st.currentCidr) :=
    fun hc => hne hc.symm
  constructor
  · simp [tick, hcond, hfail]
  · simp [tick]

/-- Witness for C10: state last saw `10.0.0.1`, the tick detects `10.0.0.2`,
the modify call fails; the new CIDR is recorded anyway and the following tick
with the same detected address issues no remote call. -/
theorem c10_failed_update_records_cidr_witness :
    tick (fun _ _ _ => .error "modify failed") (fun _ => .error "boom")
        (fun _ _ _ => .ok ())
        ⟨some ⟨167772161, 32⟩, ⟨some "pl-a", some "doorman", some 7, some "IPv4", some 10⟩⟩
        (.ok (some 167772162)) =
      (⟨some ⟨167772162, 32⟩, ⟨some "pl-a", some "doorman", some 7, some "IPv4", some 10⟩⟩,
       [.modifyEntries ⟨some "pl-a", some "doorman", some 7, some "IPv4", some 10⟩
          [⟨167772162, 32⟩] [⟨167772161, 32⟩]],
       .continued) ∧
    tick (fun _ _ _ => .error "modify failed") (fun _ => .error "boom")
        (fun _ _ _ => .ok ())
        ⟨some ⟨167772162, 32⟩, ⟨some "pl-a", some "doorman", some 7, some "IPv4", some 10⟩⟩
        (.ok (some 167772162)) =
      (⟨some ⟨167772162, 32⟩, ⟨some "pl-a", some "doorman", some 7, some "IPv4", some 10⟩⟩,
       [], .continued) :=
  c10_failed_update_records_cidr (fun _ _ _ => .error "modify failed")
    (fun _ => .error "boom") (fun _ _ _ => .ok ())
    ⟨some ⟨167772161, 32⟩, ⟨some "pl-a", some "doorman", some 7, some "IPv4", some 10⟩⟩
    167772162 "modify failed" (by decide) rfl
